import Mathlib

/-!
Verification of the async personal-CPI service (`app/views.py`).

The development shallowly embeds the task body `calculate_personal_cpi`,
the completion handler `result_callback`, and their composition.  Numeric
values travel as rationals; JSON fields that may be missing or null are
`Option` values, coerced to `0` the way the Python `cat.get(k, 0) or 0`
idiom does.  Exceptions raised inside the task body are modelled by an
explicit event type, distinguishing `requests` exceptions, other
subclasses of `Exception` (both caught by the handlers at the bottom of
the function), and exceptions outside the `Exception` class, which
escape the function.
-/

/-- One spending category of the fetched JSON payload.  `userSpent` and
`basePrice` are `none` when the field is missing or null. -/
structure CategoryRecord where
  id : Option String
  userSpent : Option ℚ
  basePrice : Option ℚ
deriving DecidableEq, Repr

/-- The payload fetched from `<CALLBACK_URL><id>/async-data`:
`request_data.get('categories', [])` and `request_data.get('comparisonDate')`. -/
structure RequestData where
  categories : List CategoryRecord
  comparisonDate : Option String
deriving DecidableEq, Repr

/-- The Python coercion `x.get(field, 0) or 0`: a missing or null field
reads as `0`. -/
def getNum (o : Option ℚ) : ℚ := o.getD 0

/-- `total_spent = sum(cat.get('userSpent', 0) or 0 for cat in categories)`. -/
def total_spent (categories : List CategoryRecord) : ℚ :=
  (categories.map (fun cat => getNum cat.userSpent)).sum

/-- The record returned by `calculate_personal_cpi`: keys `id`,
`personalCPI`, `success`. -/
structure CalculationOutcome where
  id : String
  personalCPI : Option ℚ
  success : Bool
deriving DecidableEq, Repr

/-- Half-even rounding of a rational to the nearest integer, ties to the
even neighbour — the semantics of the Python builtin `round`. -/
def roundHalfEven (y : ℚ) : ℤ :=
  let n := ⌊y⌋
  let frac := y - n
  if frac < 1/2 then n
  else if 1/2 < frac then n + 1
  else if n % 2 = 0 then n else n + 1

/-- The Python call `round(x, 2)`: round to two decimal places. -/
def pyRound2 (x : ℚ) : ℚ := (roundHalfEven (x * 100) : ℚ) / 100

/-- One iteration of the category loop of `calculate_personal_cpi`,
threading the accumulator `(personal_cpi, has_valid_categories)`. -/
def catStep (T : ℚ) (acc : ℚ × Bool) (category : CategoryRecord) : ℚ × Bool :=
  let user_spent := getNum category.userSpent
  let base_price := getNum category.basePrice
  if base_price > 0 ∧ user_spent > 0 then
    (acc.1 + (user_spent / T) * ((user_spent - base_price) / base_price), true)
  else
    acc

/-- The body of `calculate_personal_cpi` run on a successfully fetched
and decoded payload (the `response.status_code == 200` branch). -/
def computeFromData (request_id : String) (request_data : RequestData) : CalculationOutcome :=
  let categories := request_data.categories
  if categories.isEmpty then
    ⟨request_id, none, false⟩
  else
    let T := total_spent categories
    if T = 0 then
      ⟨request_id, none, false⟩
    else
      let r := categories.foldl (catStep T) (0, false)
      if r.2 = false then
        ⟨request_id, none, false⟩
      else
        ⟨request_id, some (pyRound2 (r.1 * 100)), true⟩

/-- Classes of exception that the `try` block of `calculate_personal_cpi`
may see: `requests.exceptions.RequestException` (transport or timeout
failures), any other subclass of `Exception`, and exceptions outside the
`Exception` class (e.g. `KeyboardInterrupt`), which no handler catches. -/
inductive PyExc where
  | requestException
  | otherException
  | baseException
deriving DecidableEq, Repr

/-- Whether the exception is a subclass of `Exception`, hence caught by
one of the two handlers of `calculate_personal_cpi`. -/
def PyExc.isExceptionClass : PyExc → Bool
  | .requestException => true
  | .otherException => true
  | .baseException => false

/-- What happened inside the `try` block: either an HTTP response
arrived with a status code (and, when the code is 200, a decoded body),
or some exception was raised while fetching, decoding or calculating. -/
inductive TryOutcome where
  | status (code : Nat) (data : RequestData)
  | raised (e : PyExc)
deriving DecidableEq, Repr

/-- How the future of the task completes: with a returned record, or
with a propagated exception. -/
inductive TaskResult where
  | ok (o : CalculationOutcome)
  | exn (e : PyExc)
deriving DecidableEq, Repr

/-- `calculate_personal_cpi(request_id)` as a function of what the
`try` block encounters.  A 200 response runs the calculation; any other
status returns the failure record; `RequestException` and every other
subclass of `Exception` are caught and fall through to the final
failure record; an exception outside the `Exception` class propagates. -/
def calculate_personal_cpi (request_id : String) (t : TryOutcome) : TaskResult :=
  match t with
  | .status code request_data =>
      if code = 200 then
        .ok (computeFromData request_id request_data)
      else
        .ok ⟨request_id, none, false⟩
  | .raised e =>
      match e with
      | .requestException => .ok ⟨request_id, none, false⟩
      | .otherException => .ok ⟨request_id, none, false⟩
      | .baseException => .exn .baseException

/-- How the completed future presents itself to `result_callback`:
`task.result()` returns the record, raises `CancelledError`, or
re-raises the exception the task body propagated. -/
inductive FutureResult where
  | value (o : CalculationOutcome)
  | cancelled
  | excn (e : PyExc)
deriving DecidableEq, Repr

/-- The PUT issued to `<CALLBACK_URL><id>/async-result`: the identifier
in the URL and the JSON body `{personalCPI, success}`. -/
structure Report where
  id : String
  personalCPI : Option ℚ
  success : Bool
deriving DecidableEq, Repr

/-- `result_callback(task)` as the report it issues, if any:
cancellation returns silently; an exception from `task.result()` is
logged and the callback returns (a non-`Exception` exception likewise
aborts the callback before any report); a returned record is forwarded
as one PUT. -/
def result_callback (t : FutureResult) : Option Report :=
  match t with
  | .cancelled => none
  | .excn _ => none
  | .value o => some ⟨o.id, o.personalCPI, o.success⟩

/-- The report issued for one task: `calculate_personal_cpi` composed
with the `add_done_callback` handler `result_callback`. -/
def taskReport (request_id : String) (t : TryOutcome) : Option Report :=
  match calculate_personal_cpi request_id t with
  | .ok o => result_callback (.value o)
  | .exn e => result_callback (.excn e)

/-- The loop condition `base_price > 0 and user_spent > 0`, as the loop
reads the fields. -/
def validCat (cat : CategoryRecord) : Prop :=
  getNum cat.basePrice > 0 ∧ getNum cat.userSpent > 0

instance (cat : CategoryRecord) : Decidable (validCat cat) := by
  unfold validCat; infer_instance

/-- The term one valid category adds to the accumulator. -/
def contrib (T : ℚ) (cat : CategoryRecord) : ℚ :=
  (getNum cat.userSpent / T) * ((getNum cat.userSpent - getNum cat.basePrice) / getNum cat.basePrice)

lemma foldl_catStep (T : ℚ) (cats : List CategoryRecord) (a : ℚ) (b : Bool) :
    cats.foldl (catStep T) (a, b) =
      (a + ((cats.filter (fun c => decide (validCat c))).map (contrib T)).sum,
        b || cats.any (fun c => decide (validCat c))) := by
  induction cats generalizing a b with
  | nil => simp
  | cons c cs ih =>
      by_cases h : validCat c
      · simp only [List.foldl_cons, catStep, validCat, contrib] at *
        rw [if_pos ⟨h.1, h.2⟩, ih]
        simp [List.filter_cons, h, contrib, add_assoc]
      · simp only [List.foldl_cons, catStep] at *
        rw [if_neg (by simpa [validCat] using h), ih]
        simp [List.filter_cons, h]

lemma computeFromData_id (request_id : String) (data : RequestData) :
    (computeFromData request_id data).id = request_id := by
  simp only [computeFromData]
  split_ifs <;> rfl

lemma computeFromData_success_iff (request_id : String) (data : RequestData) :
    ((computeFromData request_id data).success = true ↔
      ((computeFromData request_id data).personalCPI).isSome = true) := by
  simp only [computeFromData]
  split_ifs <;> simp

/-- C1: whenever `totalSpent > 0` and some category has `basePrice > 0`
and `userSpent > 0`, the calculation succeeds and `personalCPI` is the
weighted-change sum over exactly the valid categories, times 100,
rounded to two decimals, with all weights taken over the total spend of
ALL categories. -/
theorem cpi_formula_valid_categories (request_id : String) (data : RequestData)
    (htot : 0 < total_spent data.categories)
    (hvalid : ∃ c ∈ data.categories, validCat c) :
    computeFromData request_id data =
      ⟨request_id,
        some (pyRound2 (100 *
          ((data.categories.filter (fun c => decide (validCat c))).map
            (contrib (total_spent data.categories))).sum)),
        true⟩ := by
  obtain ⟨c, hc, hcv⟩ := hvalid
  have hne : data.categories.isEmpty = false := by
    cases h : data.categories with
    | nil => rw [h] at hc; cases hc
    | cons x xs => rfl
  have hany : data.categories.any (fun c => decide (validCat c)) = true := by
    rw [List.any_eq_true]
    exact ⟨c, hc, by simpa using hcv⟩
  simp only [computeFromData, hne, Bool.false_eq_true, if_false, foldl_catStep,
    hany, Bool.or_true, if_neg htot.ne']
  simp [mul_comm]

/-- C2: an empty category list, or a zero total spend, yields
`success = false` with `personalCPI` absent. -/
theorem cpi_empty_or_zero_total (request_id : String) (data : RequestData)
    (h : data.categories = [] ∨ total_spent data.categories = 0) :
    computeFromData request_id data = ⟨request_id, none, false⟩ := by
  rcases h with h | h
  · simp [computeFromData, h]
  · by_cases he : data.categories.isEmpty
    · simp [computeFromData, he]
    · simp [computeFromData, he, h]

/-- Witness for C2 at the empty list and at a single category whose
`userSpent` is null (total spend 0). -/
theorem cpi_empty_or_zero_total_witness :
    computeFromData "r0" ⟨[], none⟩ = ⟨"r0", none, false⟩ ∧
    computeFromData "r1" ⟨[⟨some "A", none, some 10⟩], none⟩ = ⟨"r1", none, false⟩ :=
  ⟨cpi_empty_or_zero_total "r0" ⟨[], none⟩ (Or.inl rfl),
   cpi_empty_or_zero_total "r1" ⟨[⟨some "A", none, some 10⟩], none⟩
     (Or.inr (by simp [total_spent, getNum]))⟩

/-- C3: when every category fails the `basePrice > 0 and userSpent > 0`
test, the calculation reports `success = false` with `personalCPI`
absent, no matter the total spend. -/
theorem cpi_no_valid_categories (request_id : String) (data : RequestData)
    (h : ∀ c ∈ data.categories, getNum c.basePrice ≤ 0 ∨ getNum c.userSpent ≤ 0) :
    computeFromData request_id data = ⟨request_id, none, false⟩ := by
  by_cases he : data.categories.isEmpty
  · simp [computeFromData, he]
  · by_cases ht : total_spent data.categories = 0
    · simp [computeFromData, he, ht]
    · have hany : data.categories.any (fun c => decide (validCat c)) = false := by
        rw [List.any_eq_false]
        intro c hc
        simp only [decide_eq_true_eq, validCat]
        rcases h c hc with h1 | h1
        · exact fun hv => absurd hv.1 (not_lt.2 h1)
        · exact fun hv => absurd hv.2 (not_lt.2 h1)
      simp [computeFromData, he, ht, foldl_catStep, hany]

/-- Witness for C1: the single-category example (`userSpent=150`,
`basePrice=100`) gives `personalCPI = 50.00`, and the two-category
example (A `userSpent=50, basePrice=50`, B `userSpent=50, basePrice=25`)
also gives `personalCPI = 50.00`. -/
theorem cpi_formula_valid_categories_witness :
    computeFromData "r" ⟨[⟨some "A", some 150, some 100⟩], some "2024-01-01"⟩ =
      ⟨"r", some 50, true⟩ ∧
    computeFromData "s" ⟨[⟨some "A", some 50, some 50⟩, ⟨some "B", some 50, some 25⟩], none⟩ =
      ⟨"s", some 50, true⟩ := by
  constructor
  · rw [cpi_formula_valid_categories "r" ⟨[⟨some "A", some 150, some 100⟩], some "2024-01-01"⟩
      (by norm_num [total_spent, getNum])
      ⟨⟨some "A", some 150, some 100⟩, by simp, by norm_num [validCat, getNum]⟩]
    norm_num [total_spent, getNum, validCat, contrib, pyRound2, roundHalfEven]
  · rw [cpi_formula_valid_categories "s"
      ⟨[⟨some "A", some 50, some 50⟩, ⟨some "B", some 50, some 25⟩], none⟩
      (by norm_num [total_spent, getNum])
      ⟨⟨some "A", some 50, some 50⟩, by simp, by norm_num [validCat, getNum]⟩]
    norm_num [total_spent, getNum, validCat, contrib, pyRound2, roundHalfEven]

/-- Witness for C3 at a payload with positive total spend whose only
category has `basePrice = 0`. -/
theorem cpi_no_valid_categories_witness :
    0 < total_spent [⟨some "A", some 5, some 0⟩] ∧
    computeFromData "r2" ⟨[⟨some "A", some 5, some 0⟩], none⟩ = ⟨"r2", none, false⟩ := by
  refine ⟨by norm_num [total_spent, getNum], ?_⟩
  exact cpi_no_valid_categories "r2" ⟨[⟨some "A", some 5, some 0⟩], none⟩
    (by intro c hc; simp at hc; subst hc; left; simp [getNum])

/-- C4: every record a task returns satisfies the invariant
`success = true` iff `personalCPI` is present, and `success = false`
implies `personalCPI` is absent — on every return path. -/
theorem outcome_success_iff_cpi_present (request_id : String) (t : TryOutcome)
    (o : CalculationOutcome) (h : calculate_personal_cpi request_id t = TaskResult.ok o) :
    (o.success = true ↔ (o.personalCPI).isSome = true) ∧
    (o.success = false → o.personalCPI = none) := by
  have key : o.success = true ↔ (o.personalCPI).isSome = true := by
    cases t with
    | status code data =>
        by_cases hc : code = 200
        · simp only [calculate_personal_cpi, hc, if_true, TaskResult.ok.injEq] at h
          subst h
          exact computeFromData_success_iff request_id data
        · simp only [calculate_personal_cpi, hc, if_false, TaskResult.ok.injEq] at h
          subst h; simp
    | raised e =>
        cases e with
        | requestException =>
            simp only [calculate_personal_cpi, TaskResult.ok.injEq] at h
            subst h; simp
        | otherException =>
            simp only [calculate_personal_cpi, TaskResult.ok.injEq] at h
            subst h; simp
        | baseException =>
            simp only [calculate_personal_cpi] at h
            cases h
  refine ⟨key, fun hs => ?_⟩
  have h2 : ¬ (o.personalCPI).isSome = true := fun hsome => by
    have htrue := key.mpr hsome
    rw [hs] at htrue
    cases htrue
  exact Option.not_isSome_iff_eq_none.mp h2

/-- Witness for C4 at a failed fetch (HTTP 500). -/
theorem outcome_success_iff_cpi_present_witness :
    ((CalculationOutcome.mk "r4" none false).success = true ↔
      ((CalculationOutcome.mk "r4" none false).personalCPI).isSome = true) ∧
    ((CalculationOutcome.mk "r4" none false).success = false →
      (CalculationOutcome.mk "r4" none false).personalCPI = none) :=
  outcome_success_iff_cpi_present "r4" (TryOutcome.status 500 ⟨[], none⟩)
    ⟨"r4", none, false⟩ rfl

/-- A fetch failure: a non-200 HTTP status, or a
`requests.exceptions.RequestException` (transport or timeout error). -/
def fetchFailed (t : TryOutcome) : Prop :=
  match t with
  | .status code _ => code ≠ 200
  | .raised e => e = PyExc.requestException

/-- C5: a failed fetch produces exactly one report, with body
`{success: false, personalCPI: null}`, for the identifier of the task. -/
theorem fetch_failure_reports_failure (request_id : String) (t : TryOutcome)
    (h : fetchFailed t) :
    taskReport request_id t = some ⟨request_id, none, false⟩ := by
  cases t with
  | status code data =>
      have hc : ¬ code = 200 := h
      simp [taskReport, calculate_personal_cpi, hc, result_callback]
  | raised e =>
      have he : e = PyExc.requestException := h
      subst he
      rfl

/-- Witness for C5 at HTTP status 500 and at a transport error. -/
theorem fetch_failure_reports_failure_witness :
    fetchFailed (TryOutcome.status 500 ⟨[], none⟩) ∧
    taskReport "r5" (TryOutcome.status 500 ⟨[], none⟩) = some ⟨"r5", none, false⟩ ∧
    taskReport "r5t" (TryOutcome.raised PyExc.requestException) = some ⟨"r5t", none, false⟩ :=
  ⟨by simp [fetchFailed],
   fetch_failure_reports_failure "r5" (TryOutcome.status 500 ⟨[], none⟩)
     (by simp [fetchFailed]),
   fetch_failure_reports_failure "r5t" (TryOutcome.raised PyExc.requestException) rfl⟩

/-- C6 counterexample: an unexpected error of class `Exception`, raised
inside the try block during the calculation, is caught by the broad
`except Exception` handler of `calculate_personal_cpi`, which returns
the failure record — so `result_callback` DOES issue a report for the
task, contradicting the claim that no report is made. -/
theorem unexpected_exception_counterexample :
    taskReport "r6" (TryOutcome.raised PyExc.otherException) = some ⟨"r6", none, false⟩ ∧
    taskReport "r6" (TryOutcome.raised PyExc.otherException) ≠ none := by
  refine ⟨rfl, ?_⟩
  simp [taskReport, calculate_personal_cpi, result_callback]

/-- C6 amended: only an exception outside the `Exception` class escapes
`calculate_personal_cpi` and makes the task fail with no report; an
unexpected error of class `Exception` is caught and produces a
`success = false` report, exactly like a fetch failure. -/
theorem unexpected_exception_report_policy (request_id : String) (e : PyExc) :
    taskReport request_id (TryOutcome.raised e) =
      (if e.isExceptionClass = true then some ⟨request_id, none, false⟩ else none) := by
  cases e <;> rfl

/-- C7: the calculation is a pure function of the fetched data — equal
inputs give equal outcomes. -/
theorem calculator_idempotent (request_id : String) (d1 d2 : RequestData) (h : d1 = d2) :
    computeFromData request_id d1 = computeFromData request_id d2 := by
  rw [h]

/-- Witness for C7 at a concrete payload. -/
theorem calculator_idempotent_witness :
    computeFromData "r7" ⟨[⟨none, some 3, some 2⟩], none⟩ =
      computeFromData "r7" ⟨[⟨none, some 3, some 2⟩], none⟩ :=
  calculator_idempotent "r7" ⟨[⟨none, some 3, some 2⟩], none⟩ ⟨[⟨none, some 3, some 2⟩], none⟩ rfl

/-- C8: `comparisonDate` does not influence the outcome — payloads with
the same categories give the same outcome. -/
theorem comparison_date_noninterference (request_id : String) (d1 d2 : RequestData)
    (h : d1.categories = d2.categories) :
    computeFromData request_id d1 = computeFromData request_id d2 := by
  simp only [computeFromData, h]

/-- Witness for C8 at two payloads differing only in `comparisonDate`. -/
theorem comparison_date_noninterference_witness :
    (some "2024-01-01" ≠ some "2025-06-30") ∧
    computeFromData "r8" ⟨[⟨some "A", some 150, some 100⟩], some "2024-01-01"⟩ =
      computeFromData "r8" ⟨[⟨some "A", some 150, some 100⟩], some "2025-06-30"⟩ :=
  ⟨by simp,
   comparison_date_noninterference "r8" ⟨[⟨some "A", some 150, some 100⟩], some "2024-01-01"⟩
     ⟨[⟨some "A", some 150, some 100⟩], some "2025-06-30"⟩ rfl⟩

/-- C10: for every fetch result, and every exception of class
`Exception` raised while fetching or calculating, the task body returns
a record (no exception propagates) whose `id` equals the request
identifier it was called with. -/
theorem task_body_total (request_id : String) (t : TryOutcome)
    (h : ∀ e, t = TryOutcome.raised e → e.isExceptionClass = true) :
    ∃ o : CalculationOutcome,
      calculate_personal_cpi request_id t = TaskResult.ok o ∧ o.id = request_id := by
  cases t with
  | status code data =>
      by_cases hc : code = 200
      · exact ⟨computeFromData request_id data, by simp [calculate_personal_cpi, hc],
          computeFromData_id request_id data⟩
      · exact ⟨⟨request_id, none, false⟩, by simp [calculate_personal_cpi, hc], rfl⟩
  | raised e =>
      cases e with
      | requestException => exact ⟨⟨request_id, none, false⟩, rfl, rfl⟩
      | otherException => exact ⟨⟨request_id, none, false⟩, rfl, rfl⟩
      | baseException =>
          have hb := h PyExc.baseException rfl
          simp [PyExc.isExceptionClass] at hb

/-- Witness for C10 at an unexpected `Exception`-class error. -/
theorem task_body_total_witness :
    ∃ o : CalculationOutcome,
      calculate_personal_cpi "r10" (TryOutcome.raised PyExc.otherException) =
        TaskResult.ok o ∧ o.id = "r10" :=
  task_body_total "r10" (TryOutcome.raised PyExc.otherException)
    (fun e he => by injection he with h1; exact h1 ▸ rfl)
